import Mathlib

/-!
Verification of the healthcare analysis script (src/analysis.py) against its
specification. The script is a linear pandas pipeline: load a table of patient
encounters, derive binary outcome columns and an admission-month period,
compute overall and grouped statistics, and serialize a dashboard structure.
We embed the table as a list of records, numeric columns as rationals, and
nullable values as options; pandas NaN-skipping aggregation, numpy rounding
(ties to even), groupby with sorted keys, and the pd.cut age bucketing are
modelled faithfully from the source.
-/

namespace Healthcare

/-- One row of the loaded healthcare table. The admission date is used by the
script only through its month period (df.admission_date.dt.to_period of month
granularity), modelled here as `admission_month`, a natural number encoding
year times twelve plus month index, which preserves chronological order.
Grouping columns are options because pandas drops null keys from a groupby;
numeric measure columns are rationals. -/
structure Encounter where
  patient_id : String
  admission_month : Nat
  age : ℚ
  condition : Option String
  treatment_type : Option String
  insurance_type : Option String
  length_of_stay : ℚ
  total_cost : ℚ
  doctor_visits : ℚ
  treatment_success : String
  readmitted : String
deriving DecidableEq

/-- The loaded dataframe: a list of encounter rows. -/
abbrev Table := List Encounter

/-- Binary encoding used by the cleaning step: the pandas map of a column
through the dictionary sending the string Yes to 1 and the string No to 0;
every other value becomes a missing value (none), and no error is raised. -/
def mapYesNo (s : String) : Option ℚ :=
  if s = "Yes" then some 1 else if s = "No" then some 0 else none

/-- The derived success column of a row: map of treatment_success. -/
def success_binary (r : Encounter) : Option ℚ := mapYesNo r.treatment_success

/-- The derived readmission column of a row: map of readmitted. -/
def readmitted_binary (r : Encounter) : Option ℚ := mapYesNo r.readmitted

/-- Sum of a column that may contain missing values: pandas Series.sum skips
missing entries (and yields 0 on an all-missing or empty column). -/
def sumSome (l : List (Option ℚ)) : ℚ := (l.filterMap id).sum

/-- Number of present (non-missing) entries of a column. -/
def countSome (l : List (Option ℚ)) : ℕ := (l.filterMap id).length

/-- pandas Series.mean: the mean of the present entries, missing (NaN) when
no entry is present. -/
def meanOpt (l : List (Option ℚ)) : Option ℚ :=
  if countSome l = 0 then none else some (sumSome l / (countSome l : ℚ))

/-- Mean of a fully present numeric column. -/
def meanQ (l : List ℚ) : Option ℚ := meanOpt (l.map some)

/-- Round to the nearest integer with ties going to the even integer: the
rounding used by numpy and pandas round and by the Python built-in round. -/
def roundHalfEven (q : ℚ) : ℤ :=
  if q - ⌊q⌋ < 1 / 2 then ⌊q⌋
  else if 1 / 2 < q - ⌊q⌋ then ⌊q⌋ + 1
  else if ⌊q⌋ % 2 = 0 then ⌊q⌋ else ⌊q⌋ + 1

/-- Round a rational to d decimal digits, ties to even. -/
def roundTo (d : ℕ) (q : ℚ) : ℚ := (roundHalfEven (q * 10 ^ d) : ℚ) / 10 ^ d

/-- Insertion step of an insertion sort on rationals. -/
def insertSorted (a : ℚ) : List ℚ → List ℚ
  | [] => [a]
  | b :: l => if a ≤ b then a :: b :: l else b :: insertSorted a l

/-- Insertion sort of a list of rationals, used to model the sort underlying
the pandas median. -/
def sortQ (l : List ℚ) : List ℚ := l.foldr insertSorted []

/-- pandas Series.median: the middle element of the sorted values when the
count is odd, the mean of the two middle elements when it is even. On the
empty column pandas yields NaN; we return the junk value 0 there, which is
only ever compared against rows of the (then empty) table, so the filters
built from it agree with the NaN semantics. -/
def median (l : List ℚ) : ℚ :=
  let s := sortQ l
  if s.length % 2 = 1 then s.getD (s.length / 2) 0
  else (s.getD (s.length / 2 - 1) 0 + s.getD (s.length / 2) 0) / 2

/-- Step 9 of the script: the rows whose total cost strictly exceeds the
dataset-wide median total cost and whose length of stay strictly exceeds the
dataset-wide median length of stay. -/
def expensive_long_stay (t : Table) : Table :=
  t.filter (fun r =>
    decide (median (t.map Encounter.total_cost) < r.total_cost) &&
    decide (median (t.map Encounter.length_of_stay) < r.length_of_stay))

/-- pd.cut of the age column with bin boundaries 0, 35, 50, 65, 100: the four
intervals are left-open and right-closed, ages falling in no interval get no
bucket (a missing value). -/
def age_group (a : ℚ) : Option String :=
  if 0 < a ∧ a ≤ 35 then some "Young (18-35)"
  else if 35 < a ∧ a ≤ 50 then some "Middle (36-50)"
  else if 50 < a ∧ a ≤ 65 then some "Senior (51-65)"
  else if 65 < a ∧ a ≤ 100 then some "Elderly (66+)"
  else none

/-- The four bucket labels, in the categorical order produced by pd.cut. -/
def ageLabels : List String :=
  ["Young (18-35)", "Middle (36-50)", "Senior (51-65)", "Elderly (66+)"]

/-- Step 3 overall metric: the number of loaded rows. -/
def total_patients (t : Table) : ℕ := t.length

/-- Step 3 overall metric: mean length of stay. -/
def avg_length_stay (t : Table) : Option ℚ := meanQ (t.map Encounter.length_of_stay)

/-- Step 3 overall metric: mean total cost. -/
def avg_cost (t : Table) : Option ℚ := meanQ (t.map Encounter.total_cost)

/-- Checked division modelling Python division, which raises a zero-division
error on a zero divisor: none marks the raised, uncaught fault. -/
def safeDiv (a b : ℚ) : Option ℚ := if b = 0 then none else some (a / b)

/-- Step 3 overall metric: sum of the success column divided by the number of
patients, as a percentage. On an empty table the division is by zero. -/
def success_rate (t : Table) : Option ℚ :=
  (safeDiv (sumSome (t.map success_binary)) (total_patients t : ℚ)).map (· * 100)

/-- Step 3 overall metric: sum of the readmission column divided by the number
of patients, as a percentage. On an empty table the division is by zero. -/
def readmission_rate (t : Table) : Option ℚ :=
  (safeDiv (sumSome (t.map readmitted_binary)) (total_patients t : ℚ)).map (· * 100)

/-- Insert a key into a strictly increasing key list, keeping it strictly
increasing and duplicate-free. -/
def insertKey {κ : Type} [LinearOrder κ] (a : κ) : List κ → List κ
  | [] => [a]
  | b :: l => if a < b then a :: b :: l else if a = b then b :: l else b :: insertKey a l

/-- The distinct non-null keys of a groupby, in increasing order, as produced
by pandas groupby with its default sorting; rows with a null key are
dropped. -/
def groupKeys {κ : Type} [LinearOrder κ] (t : Table) (key : Encounter → Option κ) : List κ :=
  (t.filterMap key).foldr insertKey []

/-- The rows of the group with the given key. -/
def groupRows {κ : Type} [DecidableEq κ] (t : Table) (key : Encounter → Option κ) (k : κ) : Table :=
  t.filter (fun r => decide (key r = some k))

/-- One row of the condition summary table (step 4), after renaming. -/
structure ConditionRow where
  patient_count : ℕ
  avg_stay_days : Option ℚ
  avg_cost : Option ℚ
  success_rate : Option ℚ
  readmission_rate : Option ℚ
deriving DecidableEq

/-- Aggregate one condition group: counts and means, the whole aggregate
rounded to 2 digits, then the two binary means scaled to percentages and
rounded to 1 digit, exactly as the script does it in that order. -/
def mkConditionRow (g : Table) : ConditionRow :=
  let s2 := (meanOpt (g.map success_binary)).map (roundTo 2)
  let r2 := (meanOpt (g.map readmitted_binary)).map (roundTo 2)
  { patient_count := g.length
    avg_stay_days := (meanQ (g.map Encounter.length_of_stay)).map (roundTo 2)
    avg_cost := (meanQ (g.map Encounter.total_cost)).map (roundTo 2)
    success_rate := s2.map (fun x => roundTo 1 (x * 100))
    readmission_rate := r2.map (fun x => roundTo 1 (x * 100)) }

/-- Step 4: groupby condition, aggregated. -/
def condition_stats (t : Table) : List (String × ConditionRow) :=
  (groupKeys t Encounter.condition).map
    (fun c => (c, mkConditionRow (groupRows t Encounter.condition c)))

/-- One row of the treatment summary table (step 5), after renaming. -/
structure TreatmentRow where
  patient_count : ℕ
  avg_cost : Option ℚ
  success_rate : Option ℚ
  avg_stay : Option ℚ
deriving DecidableEq

/-- Aggregate one treatment group, in the script's order of operations. -/
def mkTreatmentRow (g : Table) : TreatmentRow :=
  let s2 := (meanOpt (g.map success_binary)).map (roundTo 2)
  { patient_count := g.length
    avg_cost := (meanQ (g.map Encounter.total_cost)).map (roundTo 2)
    success_rate := s2.map (fun x => roundTo 1 (x * 100))
    avg_stay := (meanQ (g.map Encounter.length_of_stay)).map (roundTo 2) }

/-- Step 5: groupby treatment type, aggregated. -/
def treatment_stats (t : Table) : List (String × TreatmentRow) :=
  (groupKeys t Encounter.treatment_type).map
    (fun c => (c, mkTreatmentRow (groupRows t Encounter.treatment_type c)))

/-- One row of the insurance summary table (step 7), after renaming. -/
structure InsuranceRow where
  patient_count : ℕ
  avg_cost : Option ℚ
  avg_stay : Option ℚ
deriving DecidableEq

/-- Aggregate one insurance group, in the script's order of operations. -/
def mkInsuranceRow (g : Table) : InsuranceRow :=
  { patient_count := g.length
    avg_cost := (meanQ (g.map Encounter.total_cost)).map (roundTo 2)
    avg_stay := (meanQ (g.map Encounter.length_of_stay)).map (roundTo 2) }

/-- Step 7: groupby insurance type, aggregated. -/
def insurance_stats (t : Table) : List (String × InsuranceRow) :=
  (groupKeys t Encounter.insurance_type).map
    (fun c => (c, mkInsuranceRow (groupRows t Encounter.insurance_type c)))

/-- One row of the age group summary table (step 6), after renaming. -/
structure AgeRow where
  patient_count : ℕ
  avg_cost : Option ℚ
  avg_stay : Option ℚ
  success_rate : Option ℚ
deriving DecidableEq

/-- Aggregate one age group, in the script's order of operations. -/
def mkAgeRow (g : Table) : AgeRow :=
  let s2 := (meanOpt (g.map success_binary)).map (roundTo 2)
  { patient_count := g.length
    avg_cost := (meanQ (g.map Encounter.total_cost)).map (roundTo 2)
    avg_stay := (meanQ (g.map Encounter.length_of_stay)).map (roundTo 2)
    success_rate := s2.map (fun x => roundTo 1 (x * 100)) }

/-- Step 6: groupby the categorical age bucket. A pandas groupby over a
categorical column keeps every category, including empty ones, so the table
always has one row per label, in the categorical order of the labels. -/
def age_analysis (t : Table) : List (String × AgeRow) :=
  ageLabels.map (fun lbl => (lbl, mkAgeRow (groupRows t (fun r => age_group r.age) lbl)))

/-- One row of the monthly trends table (step 8), after renaming. -/
structure MonthlyRow where
  month : ℕ
  admissions : ℕ
  avg_cost : Option ℚ
deriving DecidableEq

/-- Step 8: groupby admission month; the keys come out sorted, hence in
chronological order. -/
def monthly_trends (t : Table) : List MonthlyRow :=
  (groupKeys t (fun r => some r.admission_month)).map (fun m =>
    let g := groupRows t (fun r => some r.admission_month) m
    { month := m
      admissions := g.length
      avg_cost := (meanQ (g.map Encounter.total_cost)).map (roundTo 2) })

/-- The summary block of the dashboard structure (step 11). -/
structure Summary where
  total_patients : ℕ
  avg_stay : ℚ
  avg_cost : ℚ
  success_rate : ℚ
  readmission_rate : ℚ
deriving DecidableEq

/-- The summary scalars with their stated roundings, as assembled into the
dashboard dictionary. The script reaches this point only when the rate
divisions (and the means) succeeded, so the result is missing exactly when
the run aborted earlier. -/
def buildSummary (t : Table) : Option Summary :=
  match success_rate t, readmission_rate t, avg_length_stay t, avg_cost t with
  | some sr, some rr, some stay, some cost =>
      some { total_patients := total_patients t
             avg_stay := roundTo 1 stay
             avg_cost := roundTo 2 cost
             success_rate := roundTo 1 sr
             readmission_rate := roundTo 1 rr }
  | _, _, _, _ => none

/-- The structured values the script writes to the results file. -/
inductive Json where
  | jnull : Json
  | jnum : ℚ → Json
  | jstr : String → Json
  | jarr : List Json → Json
  | jobj : List (String × Json) → Json

/-- A possibly missing number, as serialized (pandas NaN is written as a
non-numeric token; we render it as the null-like constructor). -/
def jnumOpt : Option ℚ → Json
  | none => Json.jnull
  | some q => Json.jnum q

/-- Serialize one condition record (reset_index followed by to_dict). -/
def conditionRowJson (c : String) (r : ConditionRow) : Json :=
  Json.jobj [("condition", Json.jstr c),
             ("Patient_Count", Json.jnum r.patient_count),
             ("Avg_Stay_Days", jnumOpt r.avg_stay_days),
             ("Avg_Cost", jnumOpt r.avg_cost),
             ("Success_Rate", jnumOpt r.success_rate),
             ("Readmission_Rate", jnumOpt r.readmission_rate)]

/-- Serialize one treatment record. -/
def treatmentRowJson (c : String) (r : TreatmentRow) : Json :=
  Json.jobj [("treatment_type", Json.jstr c),
             ("Patient_Count", Json.jnum r.patient_count),
             ("Avg_Cost", jnumOpt r.avg_cost),
             ("Success_Rate", jnumOpt r.success_rate),
             ("Avg_Stay", jnumOpt r.avg_stay)]

/-- Serialize one age group record. -/
def ageRowJson (c : String) (r : AgeRow) : Json :=
  Json.jobj [("age_group", Json.jstr c),
             ("Patient_Count", Json.jnum r.patient_count),
             ("Avg_Cost", jnumOpt r.avg_cost),
             ("Avg_Stay", jnumOpt r.avg_stay),
             ("Success_Rate", jnumOpt r.success_rate)]

/-- Serialize one monthly trend record; the month period is written as a
string. -/
def monthlyRowJson (r : MonthlyRow) : Json :=
  Json.jobj [("month", Json.jstr (toString r.month)),
             ("admissions", Json.jnum r.admissions),
             ("avg_cost", jnumOpt r.avg_cost)]

/-- Serialize the summary block. -/
def summaryToJson (s : Summary) : Json :=
  Json.jobj [("total_patients", Json.jnum s.total_patients),
             ("avg_stay", Json.jnum s.avg_stay),
             ("avg_cost", Json.jnum s.avg_cost),
             ("success_rate", Json.jnum s.success_rate),
             ("readmission_rate", Json.jnum s.readmission_rate)]

/-- Step 11: the dashboard structure written to the results file. It exists
only when the pipeline reached step 11, that is when no earlier step
faulted. -/
def dashboard_data (t : Table) : Option Json :=
  (buildSummary t).map (fun s => Json.jobj
    [("summary", summaryToJson s),
     ("by_condition", Json.jarr ((condition_stats t).map (fun p => conditionRowJson p.1 p.2))),
     ("by_treatment", Json.jarr ((treatment_stats t).map (fun p => treatmentRowJson p.1 p.2))),
     ("by_age_group", Json.jarr ((age_analysis t).map (fun p => ageRowJson p.1 p.2))),
     ("monthly_trends", Json.jarr ((monthly_trends t).map monthlyRowJson))])

/-- Look a key up in a serialized object. -/
def jsonLookup (l : List (String × Json)) (k : String) : Option Json :=
  match l with
  | [] => none
  | (k₀, v) :: rest => if k₀ = k then some v else jsonLookup rest k

/-- Read a serialized number back. -/
def asNum : Json → Option ℚ
  | Json.jnum q => some q
  | _ => none

/-- Read a serialized non-negative integer back. -/
def asNat : Json → Option ℕ
  | Json.jnum q => if q.den = 1 ∧ 0 ≤ q.num then some q.num.toNat else none
  | _ => none

/-- Parse a summary block back from the structured file. -/
def parseSummary (j : Json) : Option Summary :=
  match j with
  | Json.jobj fields =>
    match jsonLookup fields "total_patients", jsonLookup fields "avg_stay",
          jsonLookup fields "avg_cost", jsonLookup fields "success_rate",
          jsonLookup fields "readmission_rate" with
    | some jt, some js, some jc, some jsr, some jrr =>
      match asNat jt, asNum js, asNum jc, asNum jsr, asNum jrr with
      | some n, some a, some b, some c, some d =>
          some { total_patients := n, avg_stay := a, avg_cost := b,
                 success_rate := c, readmission_rate := d }
      | _, _, _, _, _ => none
    | _, _, _, _, _ => none
  | _ => none

/-- Write the dashboard structure and read its summary block back. -/
def readBackSummary (t : Table) : Option Summary :=
  (dashboard_data t).bind (fun j =>
    match j with
    | Json.jobj fields => (jsonLookup fields "summary").bind parseSummary
    | _ => none)

/-- A default encounter row used to build the concrete test tables. -/
def sampleRow : Encounter :=
  { patient_id := "p", admission_month := 24300, age := 40,
    condition := some "A", treatment_type := some "T", insurance_type := some "I",
    length_of_stay := 3, total_cost := 1000, doctor_visits := 2,
    treatment_success := "Yes", readmitted := "No" }

/-- Row with cost 100 and stay 1 of the three-encounter scenario. -/
def exRow100 : Encounter := { sampleRow with total_cost := 100, length_of_stay := 1 }

/-- Row with cost 200 and stay 2 of the three-encounter scenario. -/
def exRow200 : Encounter := { sampleRow with total_cost := 200, length_of_stay := 2 }

/-- Row with cost 300 and stay 3 of the three-encounter scenario. -/
def exRow300 : Encounter := { sampleRow with total_cost := 300, length_of_stay := 3 }

/-- The three-encounter scenario of the specification: costs 100, 200, 300
and stays 1, 2, 3. -/
def ex1 : Table := [exRow100, exRow200, exRow300]

/-- A two-row table whose second row carries an unmapped outcome value. -/
def ex3 : Table := [sampleRow, { sampleRow with treatment_success := "Maybe" }]

/-- A three-row table of a single condition with two successes out of
three. -/
def ex4 : Table := [sampleRow, sampleRow, { sampleRow with treatment_success := "No" }]

/-- A one-row table on which the whole pipeline succeeds. -/
def exW : Table := [sampleRow]

/-- A row whose age lies above the last bucket boundary. -/
def rowAge101 : Encounter := { sampleRow with age := 101 }

/-- A row whose age is exactly 0, the left end of the first bucket. -/
def rowAge0 : Encounter := { sampleRow with age := 0 }

/-- Membership in an insertKey insertion. -/
theorem mem_insertKey {κ : Type} [LinearOrder κ] (a b : κ) (l : List κ) :
    b ∈ insertKey a l ↔ b = a ∨ b ∈ l := by
  induction l with
  | nil => simp [insertKey]
  | cons c l ih =>
    simp only [insertKey]
    split_ifs with h1 h2
    · simp [List.mem_cons]
    · subst h2
      simp only [List.mem_cons]
      tauto
    · simp only [List.mem_cons, ih]
      tauto

/-- Inserting into a strictly increasing list keeps it strictly
increasing. -/
theorem pairwise_insertKey {κ : Type} [LinearOrder κ] (a : κ) (l : List κ)
    (h : l.Pairwise (· < ·)) : (insertKey a l).Pairwise (· < ·) := by
  induction l with
  | nil => simp [insertKey]
  | cons c l ih =>
    rw [List.pairwise_cons] at h
    obtain ⟨hc, hl⟩ := h
    simp only [insertKey]
    split_ifs with h1 h2
    · refine List.pairwise_cons.mpr ⟨?_, List.pairwise_cons.mpr ⟨hc, hl⟩⟩
      intro x hx
      rcases List.mem_cons.mp hx with rfl | hx
      · exact h1
      · exact lt_trans h1 (hc x hx)
    · exact List.pairwise_cons.mpr ⟨hc, hl⟩
    · have hca : c < a := lt_of_le_of_ne (le_of_not_lt h1) (Ne.symm h2)
      refine List.pairwise_cons.mpr ⟨?_, ih hl⟩
      intro x hx
      rcases (mem_insertKey a x l).mp hx with rfl | hx
      · exact hca
      · exact hc x hx

/-- The key list built by repeated insertion is strictly increasing. -/
theorem pairwise_foldr_insertKey {κ : Type} [LinearOrder κ] (l : List κ) :
    (l.foldr insertKey []).Pairwise (· < ·) := by
  induction l with
  | nil => simp
  | cons a l ih => exact pairwise_insertKey a _ ih

/-- The key list built by repeated insertion has the same members as its
input. -/
theorem mem_foldr_insertKey {κ : Type} [LinearOrder κ] (l : List κ) (k : κ) :
    k ∈ l.foldr insertKey [] ↔ k ∈ l := by
  induction l with
  | nil => simp
  | cons a l ih => simp [List.foldr_cons, mem_insertKey, ih, List.mem_cons]

/-- The groupby key list is strictly increasing. -/
theorem pairwise_groupKeys {κ : Type} [LinearOrder κ] (t : Table)
    (key : Encounter → Option κ) : (groupKeys t key).Pairwise (· < ·) :=
  pairwise_foldr_insertKey _

/-- Membership in the groupby key list. -/
theorem mem_groupKeys {κ : Type} [LinearOrder κ] (t : Table)
    (key : Encounter → Option κ) (k : κ) :
    k ∈ groupKeys t key ↔ k ∈ t.filterMap key :=
  mem_foldr_insertKey _ _

/-- The groupby key list has no duplicates. -/
theorem nodup_groupKeys {κ : Type} [LinearOrder κ] (t : Table)
    (key : Encounter → Option κ) : (groupKeys t key).Nodup :=
  (pairwise_groupKeys t key).imp ne_of_lt

/-- Summing a pointwise sum of two counts over a key list. -/
theorem sum_map_add {κ : Type} (l : List κ) (f g : κ → ℕ) :
    (l.map (fun k => f k + g k)).sum = (l.map f).sum + (l.map g).sum := by
  induction l with
  | nil => simp
  | cons a l ih => simp [ih]; omega

/-- An indicator summed over a list avoiding its key is zero. -/
theorem sum_map_indicator_zero {κ : Type} [DecidableEq κ] (ks : List κ) (k₀ : κ)
    (h : k₀ ∉ ks) : (ks.map (fun k => if k = k₀ then 1 else 0)).sum = 0 := by
  induction ks with
  | nil => simp
  | cons a ks ih =>
    have ha : a ≠ k₀ := fun e => h (e ▸ List.mem_cons_self a ks)
    have hk : k₀ ∉ ks := fun e => h (List.mem_cons_of_mem a e)
    simp [ha, ih hk]

/-- An indicator summed over a duplicate-free list containing its key is
one. -/
theorem sum_map_indicator_one {κ : Type} [DecidableEq κ] (ks : List κ) (k₀ : κ)
    (hnd : ks.Nodup) (hmem : k₀ ∈ ks) :
    (ks.map (fun k => if k = k₀ then 1 else 0)).sum = 1 := by
  induction ks with
  | nil => simp at hmem
  | cons a ks ih =>
    rcases List.mem_cons.mp hmem with rfl | hmem'
    · have hk : k₀ ∉ ks := (List.nodup_cons.mp hnd).1
      simp [sum_map_indicator_zero ks k₀ hk]
    · have ha : a ≠ k₀ := by
        rintro rfl
        exact (List.nodup_cons.mp hnd).1 hmem'
      simp [ha, ih (List.nodup_cons.mp hnd).2 hmem']

/-- Group sizes over a duplicate-free key list covering every row sum to the
row count: the groups partition the table. -/
theorem sum_groupRows_length {κ : Type} [DecidableEq κ] (ks : List κ)
    (key : Encounter → Option κ) (t : Table)
    (hnd : ks.Nodup) (hcov : ∀ r ∈ t, ∃ k ∈ ks, key r = some k) :
    (ks.map (fun k => (groupRows t key k).length)).sum = t.length := by
  induction t with
  | nil => simp [groupRows]
  | cons r t ih =>
    have hcov' : ∀ x ∈ t, ∃ k ∈ ks, key x = some k :=
      fun x hx => hcov x (List.mem_cons_of_mem _ hx)
    obtain ⟨k₀, hk₀, hkey⟩ := hcov r (List.mem_cons_self _ _)
    have hlen : ∀ k ∈ ks, (groupRows (r :: t) key k).length =
        (if k = k₀ then 1 else 0) + (groupRows t key k).length := by
      intro k _
      by_cases hk : k = k₀
      · subst hk
        simp [groupRows, List.filter_cons, hkey]
        omega
      · have hne : key r ≠ some k := by
          rw [hkey]
          simpa using (Ne.symm hk)
        simp [groupRows, List.filter_cons, hne, hk]
    rw [List.map_congr_left hlen, sum_map_add, sum_map_indicator_one ks k₀ hnd hk₀,
        ih hcov', List.length_cons]
    omega

/-- A column with only present entries has as many present entries as
rows. -/
theorem countSome_eq_length (l : List (Option ℚ)) (h : ∀ x ∈ l, x.isSome) :
    countSome l = l.length := by
  induction l with
  | nil => rfl
  | cons a l ih =>
    have htail := ih (fun x hx => h x (List.mem_cons_of_mem a hx))
    obtain ⟨y, rfl⟩ := Option.isSome_iff_exists.mp (h a (List.mem_cons_self a l))
    simp [countSome, List.filterMap_cons] at htail ⊢
    exact htail

/-- The mean of a non-empty fully present column. -/
theorem meanQ_eq (l : List ℚ) (h : l ≠ []) :
    meanQ l = some (l.sum / (l.length : ℚ)) := by
  have hlen : l.length ≠ 0 := fun e => h (List.eq_nil_of_length_eq_zero e)
  simp [meanQ, meanOpt, countSome, sumSome, List.filterMap_map, hlen]

/-- The overall success rate of a non-empty table. -/
theorem success_rate_eq (t : Table) (h : t ≠ []) :
    success_rate t =
      some (sumSome (t.map success_binary) / (t.length : ℚ) * 100) := by
  have hlen : t.length ≠ 0 := fun e => h (List.eq_nil_of_length_eq_zero e)
  have hq : ((t.length : ℚ)) ≠ 0 := Nat.cast_ne_zero.mpr hlen
  simp [success_rate, safeDiv, total_patients, hq]

/-- The overall readmission rate of a non-empty table. -/
theorem readmission_rate_eq (t : Table) (h : t ≠ []) :
    readmission_rate t =
      some (sumSome (t.map readmitted_binary) / (t.length : ℚ) * 100) := by
  have hlen : t.length ≠ 0 := fun e => h (List.eq_nil_of_length_eq_zero e)
  have hq : ((t.length : ℚ)) ≠ 0 := Nat.cast_ne_zero.mpr hlen
  simp [readmission_rate, safeDiv, total_patients, hq]

/-- Every assigned bucket label is one of the four fixed labels. -/
theorem age_group_mem_labels (a : ℚ) (lbl : String)
    (h : age_group a = some lbl) : lbl ∈ ageLabels := by
  unfold age_group at h
  split_ifs at h <;> simp_all [ageLabels]

/-- Parsing a serialized summary block recovers it exactly. -/
theorem parseSummary_summaryToJson (s : Summary) :
    parseSummary (summaryToJson s) = some s := by
  cases s with
  | mk n a b c d =>
    simp [parseSummary, summaryToJson, jsonLookup, asNat, asNum,
          Rat.den_natCast, Rat.num_natCast]

/-- C1: the expensive_long_stay subset consists of exactly those rows whose
total cost strictly exceeds the dataset-wide median total cost and whose
length of stay strictly exceeds the dataset-wide median length of stay; on
the three-encounter scenario with costs 100, 200, 300 and stays 1, 2, 3 the
medians are 200 and 2 and the subset is exactly the single row with cost 300
and stay 3. -/
theorem C1_expensive_long_stay :
    (∀ (t : Table) (r : Encounter),
        r ∈ expensive_long_stay t ↔
          r ∈ t ∧ median (t.map Encounter.total_cost) < r.total_cost ∧
            median (t.map Encounter.length_of_stay) < r.length_of_stay) ∧
    median (ex1.map Encounter.total_cost) = 200 ∧
    median (ex1.map Encounter.length_of_stay) = 2 ∧
    expensive_long_stay ex1 = [exRow300] ∧
    (expensive_long_stay ex1).length = 1 := by
  refine ⟨?_, by decide, by decide, by decide, by decide⟩
  intro t r
  simp [expensive_long_stay, List.mem_filter]

/-- C2: age bucketing uses the fixed right-closed boundaries 0, 35, 50, 65,
100 with four labeled ranges; age 35 falls in the first bucket, age 36 in the
second, any age outside the closed range from 0 to 100 (for example 101) gets
no bucket, and a row with no bucket belongs to no age group of the
by_age_group table. -/
theorem C2_age_bucketing :
    age_group 35 = some "Young (18-35)" ∧
    age_group 36 = some "Middle (36-50)" ∧
    age_group 101 = none ∧
    (∀ a : ℚ, a < 0 ∨ 100 < a → age_group a = none) ∧
    (∀ (a : ℚ) (lbl : String), age_group a = some lbl → lbl ∈ ageLabels) ∧
    (∀ (t : Table) (r : Encounter) (lbl : String),
        age_group r.age = none →
          r ∉ groupRows t (fun x => age_group x.age) lbl) := by
  refine ⟨by decide, by decide, by decide, ?_, age_group_mem_labels, ?_⟩
  · intro a ha
    have hnot : ¬(0 < a ∧ a ≤ 100) := by
      rcases ha with ha | ha <;> exact fun h => by linarith [h.1, h.2]
    unfold age_group
    split_ifs with h1 h2 h3 h4
    · exact absurd ⟨h1.1, h1.2.trans (by norm_num)⟩ hnot
    · exact absurd ⟨lt_trans (by norm_num) h2.1, h2.2.trans (by norm_num)⟩ hnot
    · exact absurd ⟨lt_trans (by norm_num) h3.1, h3.2.trans (by norm_num)⟩ hnot
    · exact absurd ⟨lt_trans (by norm_num) h4.1, h4.2⟩ hnot
    · rfl
  · intro t r lbl hnone hmem
    have hd := (List.mem_filter.mp hmem).2
    rw [decide_eq_true_iff] at hd
    have hd' : age_group r.age = some lbl := hd
    rw [hnone] at hd'
    exact Option.noConfusion hd'

/-- Witness for C2 at concrete inputs: age minus one gets no bucket, and the
row of age 101 is in no bucket's group. -/
theorem C2_age_bucketing_witness :
    age_group (-1 : ℚ) = none ∧
    rowAge101 ∉ groupRows [rowAge101] (fun x => age_group x.age) "Elderly (66+)" :=
  ⟨C2_age_bucketing.2.2.2.1 (-1) (Or.inl (by norm_num)),
   C2_age_bucketing.2.2.2.2.2 [rowAge101] rowAge101 "Elderly (66+)" (by decide)⟩

/-- C10: an encounter whose age is exactly 0 gets no bucket, because the
first cut interval is left-open at 0, even though 0 lies inside the closed
range from 0 to 100; such a row belongs to no age group of the by_age_group
table. -/
theorem C10_age_zero_unbucketed :
    age_group 0 = none ∧
    (0 : ℚ) ∈ Set.Icc (0 : ℚ) 100 ∧
    (∀ (t : Table) (r : Encounter) (lbl : String),
        r.age = 0 → r ∉ groupRows t (fun x => age_group x.age) lbl) := by
  refine ⟨by decide, by constructor <;> norm_num, ?_⟩
  intro t r lbl hage hmem
  have hd := (List.mem_filter.mp hmem).2
  rw [decide_eq_true_iff] at hd
  have hd' : age_group r.age = some lbl := hd
  rw [hage] at hd'
  have hnone : age_group 0 = none := by decide
  rw [hnone] at hd'
  exact Option.noConfusion hd'

/-- Witness for C10 at a concrete input: the age-0 row is not in the first
bucket's group of a one-row table. -/
theorem C10_age_zero_unbucketed_witness :
    rowAge0 ∉ groupRows [rowAge0] (fun x => age_group x.age) "Young (18-35)" :=
  C10_age_zero_unbucketed.2.2 [rowAge0] rowAge0 "Young (18-35)" rfl

/-- C8: any outcome or readmission value other than exactly Yes or No is
binary-encoded to a missing value; the encoding is total, so no error is
raised and every row still yields an entry of the derived columns. -/
theorem C8_unmapped_silent (v : String) (h1 : v ≠ "Yes") (h2 : v ≠ "No") :
    mapYesNo v = none ∧
    (∀ r : Encounter, r.treatment_success = v → success_binary r = none) ∧
    (∀ r : Encounter, r.readmitted = v → readmitted_binary r = none) ∧
    (∀ t : Table, (t.map success_binary).length = t.length ∧
      (t.map readmitted_binary).length = t.length) := by
  have hmap : mapYesNo v = none := by simp [mapYesNo, h1, h2]
  refine ⟨hmap, ?_, ?_, ?_⟩
  · intro r hr
    simp [success_binary, hr, hmap]
  · intro r hr
    simp [readmitted_binary, hr, hmap]
  · intro t
    simp

/-- Witness for C8 at a concrete unmapped value. -/
theorem C8_unmapped_silent_witness : mapYesNo "Maybe" = none :=
  (C8_unmapped_silent "Maybe" (by decide) (by decide)).1

/-- C9: on an empty table the rate calculations divide by zero, the fault
propagates (modelled by the missing result), and the pipeline produces no
dashboard structure and hence no results file content. -/
theorem C9_empty_divzero :
    success_rate ([] : Table) = none ∧
    readmission_rate ([] : Table) = none ∧
    buildSummary ([] : Table) = none ∧
    dashboard_data ([] : Table) = none ∧
    readBackSummary ([] : Table) = none :=
  ⟨rfl, rfl, rfl, rfl, rfl⟩

/-- C3 counterexample: on a two-row table whose second outcome value is the
unmapped string Maybe, the mean of the success column is 1 (the missing entry
is skipped) so mean times 100 is 100, while the reported success rate divides
the sum by the total row count and is 50; the two disagree even after the
one-decimal rounding. -/
theorem C3_counterexample :
    meanOpt (ex3.map success_binary) = some 1 ∧
    success_rate ex3 = some 50 ∧
    roundTo 1 ((1 : ℚ) * 100) ≠ roundTo 1 50 := by
  refine ⟨by with_unfolding_all rfl, by with_unfolding_all rfl,
    by with_unfolding_all decide⟩

/-- C3 amended: for every non-empty loaded table in which every
treatment_success value is exactly Yes or No, the mean of the success column
times 100 equals the reported success rate exactly, hence also after the
stated one-decimal rounding, including as stored in the summary block. -/
theorem C3_mean_matches_rate (t : Table) (h1 : t ≠ [])
    (h2 : ∀ r ∈ t, r.treatment_success = "Yes" ∨ r.treatment_success = "No") :
    ∃ m, meanOpt (t.map success_binary) = some m ∧
      success_rate t = some (m * 100) ∧
      ∀ s, buildSummary t = some s → s.success_rate = roundTo 1 (m * 100) := by
  have hlen : t.length ≠ 0 := fun e => h1 (List.eq_nil_of_length_eq_zero e)
  have hall : ∀ x ∈ t.map success_binary, x.isSome := by
    intro x hx
    obtain ⟨r, hr, rfl⟩ := List.mem_map.mp hx
    rcases h2 r hr with h | h <;> simp [success_binary, mapYesNo, h]
  have hcount : countSome (t.map success_binary) = t.length := by
    rw [countSome_eq_length _ hall, List.length_map]
  refine ⟨sumSome (t.map success_binary) / (t.length : ℚ), ?_, ?_, ?_⟩
  · rw [meanOpt, if_neg (by rw [hcount]; exact hlen), hcount]
  · rw [success_rate_eq t h1]
  · intro s hs
    have hsr := success_rate_eq t h1
    rcases e2 : readmission_rate t with _ | rr
    · rw [readmission_rate_eq t h1] at e2
      exact Option.noConfusion e2
    rcases e3 : avg_length_stay t with _ | stay
    · rw [avg_length_stay, meanQ_eq _ (by simpa using h1)] at e3
      exact Option.noConfusion e3
    rcases e4 : avg_cost t with _ | cost
    · rw [avg_cost, meanQ_eq _ (by simpa using h1)] at e4
      exact Option.noConfusion e4
    rw [buildSummary, hsr, e2, e3, e4] at hs
    obtain rfl := (Option.some.inj hs).symm
    rfl

/-- Witness for the amended C3 on a concrete one-row table. -/
theorem C3_mean_matches_rate_witness : success_rate exW = some ((1 : ℚ) * 100) := by
  obtain ⟨m, hm, hr, _⟩ := C3_mean_matches_rate exW (by decide) (by decide)
  have h1 : meanOpt (exW.map success_binary) = some 1 := by with_unfolding_all rfl
  rw [hm] at h1
  rw [Option.some.inj h1] at hr
  exact hr

/-- C4 counterexample: for a single-condition table with two successes out of
three, the group mean is two thirds; the script first rounds the mean to two
decimals (0.67), scales and rounds again, reporting 67, whereas rounding the
mean times 100 to one decimal gives 66.7. The table entry differs from the
claimed formula. -/
theorem C4_counterexample :
    (condition_stats ex4).map (fun p => (p.1, p.2.success_rate)) =
      [("A", some 67)] ∧
    (meanOpt ((groupRows ex4 Encounter.condition "A").map success_binary)).map
        (fun m => roundTo 1 (m * 100)) = some (667 / 10) ∧
    ((667 : ℚ) / 10) ≠ 67 := by
  refine ⟨by with_unfolding_all rfl, by with_unfolding_all rfl,
    by with_unfolding_all decide⟩

/-- C4 amended: in every grouped summary table the percentage fields equal
the group mean of the binary field first rounded to two decimals by the
table-wide rounding, then converted to a percentage and rounded to one
decimal. -/
theorem C4_percentage_fields (t : Table) :
    (∀ c row, (c, row) ∈ condition_stats t →
        row.success_rate =
          (meanOpt ((groupRows t Encounter.condition c).map success_binary)).map
            (fun m => roundTo 1 (roundTo 2 m * 100)) ∧
        row.readmission_rate =
          (meanOpt ((groupRows t Encounter.condition c).map readmitted_binary)).map
            (fun m => roundTo 1 (roundTo 2 m * 100))) ∧
    (∀ c row, (c, row) ∈ treatment_stats t →
        row.success_rate =
          (meanOpt ((groupRows t Encounter.treatment_type c).map success_binary)).map
            (fun m => roundTo 1 (roundTo 2 m * 100))) ∧
    (∀ lbl row, (lbl, row) ∈ age_analysis t →
        row.success_rate =
          (meanOpt ((groupRows t (fun r => age_group r.age) lbl).map success_binary)).map
            (fun m => roundTo 1 (roundTo 2 m * 100))) := by
  refine ⟨?_, ?_, ?_⟩
  · intro c row hmem
    obtain ⟨k, _, heq⟩ := List.mem_map.mp hmem
    injection heq with h1 h2
    subst h1
    subst h2
    constructor <;> (simp [mkConditionRow, Option.map_map]; try rfl)
  · intro c row hmem
    obtain ⟨k, _, heq⟩ := List.mem_map.mp hmem
    injection heq with h1 h2
    subst h1
    subst h2
    simp [mkTreatmentRow, Option.map_map]
    try rfl
  · intro lbl row hmem
    obtain ⟨k, _, heq⟩ := List.mem_map.mp hmem
    injection heq with h1 h2
    subst h1
    subst h2
    simp [mkAgeRow, Option.map_map]
    try rfl

/-- Witness for the amended C4 at the concrete single-condition table. -/
theorem C4_percentage_fields_witness :
    (mkConditionRow (groupRows ex4 Encounter.condition "A")).success_rate =
      (meanOpt ((groupRows ex4 Encounter.condition "A").map success_binary)).map
        (fun m => roundTo 1 (roundTo 2 m * 100)) :=
  ((C4_percentage_fields ex4).1 "A"
    (mkConditionRow (groupRows ex4 Encounter.condition "A"))
    (by
      have h : condition_stats ex4 =
          [("A", mkConditionRow (groupRows ex4 Encounter.condition "A"))] := by
        with_unfolding_all rfl
      rw [h]
      exact List.mem_cons_self _ _)).1

/-- C5: for every non-empty table whose grouping keys (condition, treatment
type, insurance type, age bucket) are all present, total_patients equals the
row count and the patient counts of each grouped table carrying a
Patient_Count column sum to total_patients. -/
theorem C5_counts_partition (t : Table) (_h1 : t ≠ [])
    (hc : ∀ r ∈ t, r.condition.isSome)
    (ht : ∀ r ∈ t, r.treatment_type.isSome)
    (hi : ∀ r ∈ t, r.insurance_type.isSome)
    (ha : ∀ r ∈ t, (age_group r.age).isSome) :
    total_patients t = t.length ∧
    ((condition_stats t).map (fun p => p.2.patient_count)).sum = total_patients t ∧
    ((treatment_stats t).map (fun p => p.2.patient_count)).sum = total_patients t ∧
    ((insurance_stats t).map (fun p => p.2.patient_count)).sum = total_patients t ∧
    ((age_analysis t).map (fun p => p.2.patient_count)).sum = total_patients t := by
  refine ⟨rfl, ?_, ?_, ?_, ?_⟩
  · have hcov : ∀ r ∈ t, ∃ k ∈ groupKeys t Encounter.condition,
        r.condition = some k := by
      intro r hr
      obtain ⟨c, hco⟩ := Option.isSome_iff_exists.mp (hc r hr)
      exact ⟨c, (mem_groupKeys t _ c).mpr (List.mem_filterMap.mpr ⟨r, hr, hco⟩), hco⟩
    have h := sum_groupRows_length (groupKeys t Encounter.condition)
      Encounter.condition t (nodup_groupKeys t _) hcov
    rw [condition_stats, List.map_map]
    rw [List.map_congr_left
      (fun k _ => rfl :
        ∀ k ∈ groupKeys t Encounter.condition,
          ((fun p : String × ConditionRow => p.2.patient_count) ∘
            fun c => (c, mkConditionRow (groupRows t Encounter.condition c))) k =
          (groupRows t Encounter.condition k).length)]
    exact h
  · have hcov : ∀ r ∈ t, ∃ k ∈ groupKeys t Encounter.treatment_type,
        r.treatment_type = some k := by
      intro r hr
      obtain ⟨c, hco⟩ := Option.isSome_iff_exists.mp (ht r hr)
      exact ⟨c, (mem_groupKeys t _ c).mpr (List.mem_filterMap.mpr ⟨r, hr, hco⟩), hco⟩
    have h := sum_groupRows_length (groupKeys t Encounter.treatment_type)
      Encounter.treatment_type t (nodup_groupKeys t _) hcov
    rw [treatment_stats, List.map_map]
    rw [List.map_congr_left
      (fun k _ => rfl :
        ∀ k ∈ groupKeys t Encounter.treatment_type,
          ((fun p : String × TreatmentRow => p.2.patient_count) ∘
            fun c => (c, mkTreatmentRow (groupRows t Encounter.treatment_type c))) k =
          (groupRows t Encounter.treatment_type k).length)]
    exact h
  · have hcov : ∀ r ∈ t, ∃ k ∈ groupKeys t Encounter.insurance_type,
        r.insurance_type = some k := by
      intro r hr
      obtain ⟨c, hco⟩ := Option.isSome_iff_exists.mp (hi r hr)
      exact ⟨c, (mem_groupKeys t _ c).mpr (List.mem_filterMap.mpr ⟨r, hr, hco⟩), hco⟩
    have h := sum_groupRows_length (groupKeys t Encounter.insurance_type)
      Encounter.insurance_type t (nodup_groupKeys t _) hcov
    rw [insurance_stats, List.map_map]
    rw [List.map_congr_left
      (fun k _ => rfl :
        ∀ k ∈ groupKeys t Encounter.insurance_type,
          ((fun p : String × InsuranceRow => p.2.patient_count) ∘
            fun c => (c, mkInsuranceRow (groupRows t Encounter.insurance_type c))) k =
          (groupRows t Encounter.insurance_type k).length)]
    exact h
  · have hcov : ∀ r ∈ t, ∃ k ∈ ageLabels, age_group r.age = some k := by
      intro r hr
      obtain ⟨c, hco⟩ := Option.isSome_iff_exists.mp (ha r hr)
      exact ⟨c, age_group_mem_labels r.age c hco, hco⟩
    have h := sum_groupRows_length ageLabels (fun r => age_group r.age) t
      (by decide) hcov
    rw [age_analysis, List.map_map]
    rw [List.map_congr_left
      (fun k _ => rfl :
        ∀ k ∈ ageLabels,
          ((fun p : String × AgeRow => p.2.patient_count) ∘
            fun lbl => (lbl, mkAgeRow (groupRows t (fun r => age_group r.age) lbl))) k =
          (groupRows t (fun r => age_group r.age) k).length)]
    exact h

/-- Witness for C5 at a concrete three-row table with one condition, one
treatment type, one insurance type and one age bucket. -/
theorem C5_counts_partition_witness :
    ((condition_stats ex4).map (fun p => p.2.patient_count)).sum =
        total_patients ex4 ∧
    ((insurance_stats ex4).map (fun p => p.2.patient_count)).sum =
        total_patients ex4 := by
  have h := C5_counts_partition ex4 (by decide) (by decide) (by decide)
    (by decide) (by decide)
  exact ⟨h.2.1, h.2.2.2.1⟩

/-- C6: whenever the pipeline builds the dashboard structure, serializing it
and parsing the summary block back recovers exactly the summary scalars, and
those scalars are the values computed directly from the loaded table with the
stated roundings: the row count, the mean stay rounded to 1 decimal, the mean
cost rounded to 2 decimals, and the two rates rounded to 1 decimal. -/
theorem C6_roundtrip (t : Table) (s : Summary) (h : buildSummary t = some s) :
    readBackSummary t = some s ∧
    s.total_patients = total_patients t ∧
    (avg_length_stay t).map (roundTo 1) = some s.avg_stay ∧
    (avg_cost t).map (roundTo 2) = some s.avg_cost ∧
    (success_rate t).map (roundTo 1) = some s.success_rate ∧
    (readmission_rate t).map (roundTo 1) = some s.readmission_rate := by
  have hread : readBackSummary t = some s := by
    simp [readBackSummary, dashboard_data, h, jsonLookup, parseSummary_summaryToJson]
  rcases e1 : success_rate t with _ | sr <;>
    rcases e2 : readmission_rate t with _ | rr <;>
    rcases e3 : avg_length_stay t with _ | stay <;>
    rcases e4 : avg_cost t with _ | cost <;>
    rw [buildSummary, e1, e2, e3, e4] at h <;>
    first
      | exact Option.noConfusion h
      | (obtain rfl := (Option.some.inj h).symm
         exact ⟨hread, rfl, rfl, rfl, rfl, rfl⟩)

/-- Witness for C6 at a concrete one-row table. -/
theorem C6_roundtrip_witness :
    readBackSummary exW = some ⟨1, 3, 1000, 100, 0⟩ :=
  (C6_roundtrip exW ⟨1, 3, 1000, 100, 0⟩ (by with_unfolding_all rfl)).1

/-- C7: the monthly trends list is ordered chronologically; every entry's
month strictly precedes the next entry's month. -/
theorem C7_monthly_chronological (t : Table) :
    List.Chain' (fun a b => a.month < b.month) (monthly_trends t) := by
  rw [monthly_trends, List.chain'_map]
  exact (pairwise_groupKeys t (fun r => some r.admission_month)).chain'

end Healthcare
